import Mathlib

/-!
Shallow embedding of the Flappy Bird game in `main.go` and verification of
its update/collision/state-machine logic.

Modelling conventions:
* Go `float64` fields (`birdY`, `birdDY`) are modelled as `ℚ`; all constants
  involved (`0.1`, `-2`, integer pillar coordinates) are exact rationals, so
  the additive structure of the update is represented faithfully.
* Go `int` fields are modelled as `ℤ`.  Go's `%` is a truncated remainder
  while Lean's `%` on `ℤ` is the Euclidean remainder; the code only ever
  tests `frameCount % (screenWidth/pillarSpeed) == 0`, and the two
  remainders vanish on exactly the same arguments (divisibility), so the
  embedding agrees with the Go code on this test for every integer.
* `rand.Intn (screenHeight - pillarGap - pillarWidth)` is modelled by a
  parameter `r : ℤ`; the reachability relation constrains it to the range
  `0 ≤ r < screenHeight - pillarGap - pillarWidth` that `Intn` guarantees.
* The Go loop `for _, pillar := range g.pillars` iterates over the slice
  header captured at loop entry while `g.pillars = g.pillars[1:]` re-slices
  the shared backing array.  Since the elements are pointers, every element
  of the captured snapshot has its `x` decremented exactly once, and each
  crossing (`pillar.x < -pillarWidth`) drops one element from the front of
  the current slice.  Hence after the loop the pillar field equals the moved
  snapshot with `k` elements dropped from the front, where `k` is the number
  of crossings, the score grows by `k`, and `isGameOver` is set exactly when
  some moved snapshot element satisfies the collision test.
-/

namespace FlappyBird

/-- `screenWidth` constant from main.go. -/
def screenWidth : ℤ := 640

/-- `screenHeight` constant from main.go. -/
def screenHeight : ℤ := 630

/-- `birdSize` constant from main.go. -/
def birdSize : ℤ := 40

/-- `pillarWidth` constant from main.go. -/
def pillarWidth : ℤ := 200

/-- `pillarGap` constant from main.go. -/
def pillarGap : ℤ := 200

/-- `pillarSpeed` constant from main.go. -/
def pillarSpeed : ℤ := 3

/-- A pillar: horizontal position `x` and vertical gap offset `y`
(type `Pillar` in main.go). -/
structure Pillar where
  x : ℤ
  y : ℤ
deriving DecidableEq, Repr

/-- The game state (type `Game` in main.go; the mutex and the image handles
carry no game-logic state and are omitted). -/
structure Game where
  birdY : ℚ
  birdDY : ℚ
  pillars : List Pillar
  frameCount : ℤ
  isGameOver : Bool
  score : ℤ
  started : Bool
deriving DecidableEq, Repr

/-- `NewPillar` from main.go: `x := screenWidth`,
`y := rand.Intn(screenHeight - pillarGap - pillarWidth)`, clamped to `0`
when negative.  The random draw is the parameter `r`. -/
def NewPillar (r : ℤ) : Pillar :=
  { x := screenWidth, y := if r < 0 then 0 else r }

/-- `Reset` from main.go: the state it writes (it overwrites every field). -/
def resetState : Game :=
  { birdY := ((screenHeight / 2 : ℤ) : ℚ)
    birdDY := 0
    pillars := []
    frameCount := 0
    isGameOver := false
    score := 0
    started := false }

/-- The `Game` literal built in `main`: only `pillars` is set explicitly,
every other field keeps its Go zero value (`0`, `false`). -/
def initState : Game :=
  { birdY := 0
    birdDY := 0
    pillars := []
    frameCount := 0
    isGameOver := false
    score := 0
    started := false }

/-- `pillar.x < -pillarWidth`: the pillar has scrolled fully past the left
edge (the removal/scoring test in `Update`). -/
def crossed (p : Pillar) : Bool :=
  decide (p.x < -pillarWidth)

/-- The collision test in `Update`:
`(birdY < float64(pillar.y) || birdY > float64(pillar.y+pillarGap))`
and `(pillar.x < birdSize && pillar.x > -pillarWidth)`. -/
def collides (birdY : ℚ) (p : Pillar) : Bool :=
  (decide (birdY < (p.y : ℚ)) || decide (birdY > ((p.y + pillarGap : ℤ) : ℚ)))
    && (decide (p.x < birdSize) && decide (p.x > -pillarWidth))

/-- `pillar.x -= pillarSpeed` in the per-pillar loop of `Update`. -/
def movePillar (p : Pillar) : Pillar :=
  { p with x := p.x - pillarSpeed }

/-- The pillar list right after the spawn step of a playing tick:
`g.frameCount` has been incremented, and when the incremented counter is
divisible by `screenWidth/pillarSpeed` a fresh `NewPillar` is appended. -/
def spawnedPillars (g : Game) (r : ℤ) : List Pillar :=
  if (g.frameCount + 1) % (screenWidth / pillarSpeed) = 0 then
    g.pillars ++ [NewPillar r]
  else
    g.pillars

/-- The snapshot of the pillar list after the loop decremented every `x` by
`pillarSpeed` (each element of `spawnedPillars` is a pointer that is moved
exactly once during the loop). -/
def movedPillars (g : Game) (r : ℤ) : List Pillar :=
  (spawnedPillars g r).map movePillar

/-- The body of `if g.started && !g.isGameOver { ... }` in `Update`:
gravity, jump impulse, position integration, frame counting, spawning, the
pillar loop (movement, front removal with scoring, collision detection). -/
def playStep (g : Game) (jump : Bool) (r : ℤ) : Game :=
  { g with
    birdDY := if jump then -2 else g.birdDY + 1/10
    birdY := g.birdY + (if jump then -2 else g.birdDY + 1/10)
    frameCount := g.frameCount + 1
    pillars := (movedPillars g r).drop ((movedPillars g r).filter crossed).length
    score := g.score + (((movedPillars g r).filter crossed).length : ℤ)
    isGameOver := g.isGameOver
      || (movedPillars g r).any
           (collides (g.birdY + (if jump then -2 else g.birdDY + 1/10))) }

/-- The first block of `Update`: while neither over nor started, a pressed
jump key sets `started`. -/
def startStep (g : Game) (jump : Bool) : Game :=
  if !g.isGameOver && !g.started && jump then { g with started := true } else g

/-- `Update` up to (but excluding) the final Enter/Reset check. -/
def preEnter (g : Game) (jump : Bool) (r : ℤ) : Game :=
  let g1 := startStep g jump
  if g1.started && !g1.isGameOver then playStep g1 jump r else g1

/-- One call of `Update` in main.go.  `jump` is
`IsKeyPressed(Space) || IsKeyPressed(ArrowUp)` and `enter` is
`IsKeyPressed(Enter)` during that call; `r` is the value the random source
would return if a pillar is spawned this tick. -/
def Update (g : Game) (jump enter : Bool) (r : ℤ) : Game :=
  let g2 := preEnter g jump r
  if g2.isGameOver && enter then resetState else g2

/-- States reachable from the start-of-process state by ticks of `Update`,
with the random draw constrained to the range `rand.Intn` guarantees. -/
inductive Reachable : Game → Prop where
  | init : Reachable initState
  | step : ∀ {s : Game} (jump enter : Bool) (r : ℤ), Reachable s →
      0 ≤ r → r < screenHeight - pillarGap - pillarWidth →
      Reachable (Update s jump enter r)

/-- `Draw` in main.go applies `Translate(pillar.x, pillar.y)`, draws the
first pillar sprite, then applies a further
`Translate(0, pillarGap + pillarWidth)` and draws the second sprite.
This accumulates the translation component of the `GeoM`. -/
def geoTranslate (m : ℤ × ℤ) (dx dy : ℤ) : ℤ × ℤ :=
  (m.1 + dx, m.2 + dy)

/-- The two screen positions (top-left corners) at which `Draw` places the
two sprites of one pillar. -/
def pillarSpriteTops (p : Pillar) : (ℤ × ℤ) × (ℤ × ℤ) :=
  let op := geoTranslate (0, 0) p.x p.y
  (op, geoTranslate op 0 (pillarGap + pillarWidth))

/-! ### Basic reduction lemmas -/

theorem update_enter_false (s : Game) (j : Bool) (r : ℤ) :
    Update s j false r = preEnter s j r := by
  simp [Update]

theorem update_play (s : Game) (j : Bool) (r : ℤ)
    (hs : s.started = true) (ho : s.isGameOver = false) :
    Update s j false r = playStep s j r := by
  simp [Update, preEnter, startStep, hs, ho]

theorem playStep_birdDY (s : Game) (j : Bool) (r : ℤ) :
    (playStep s j r).birdDY = if j then -2 else s.birdDY + 1/10 := rfl

theorem playStep_birdY (s : Game) (j : Bool) (r : ℤ) :
    (playStep s j r).birdY = s.birdY + (if j then -2 else s.birdDY + 1/10) := rfl

theorem playStep_frameCount (s : Game) (j : Bool) (r : ℤ) :
    (playStep s j r).frameCount = s.frameCount + 1 := rfl

theorem playStep_pillars (s : Game) (j : Bool) (r : ℤ) :
    (playStep s j r).pillars =
      (movedPillars s r).drop ((movedPillars s r).filter crossed).length := rfl

theorem playStep_score (s : Game) (j : Bool) (r : ℤ) :
    (playStep s j r).score =
      s.score + (((movedPillars s r).filter crossed).length : ℤ) := rfl

theorem playStep_isGameOver (s : Game) (j : Bool) (r : ℤ) :
    (playStep s j r).isGameOver =
      (s.isGameOver || (movedPillars s r).any (collides (playStep s j r).birdY)) := rfl

theorem playStep_started (s : Game) (j : Bool) (r : ℤ) :
    (playStep s j r).started = s.started := rfl

/-! ### Concrete states used by witnesses and counterexamples -/

/-- A playing-state fixture: started, not over, one pillar just entering the
bird's column with its gap band `[0, 200]` above the bird. -/
def sPlay : Game :=
  { birdY := 315
    birdDY := 0
    pillars := [⟨40, 0⟩]
    frameCount := 10
    isGameOver := false
    score := 0
    started := true }

/-- A game-over fixture. -/
def sOverFx : Game :=
  { birdY := 100
    birdDY := 1
    pillars := [⟨40, 0⟩]
    frameCount := 10
    isGameOver := true
    score := 2
    started := true }

/-! ### Claim theorems -/

/-- Claim C2: in a playing tick the velocity becomes the previous velocity
plus the gravity constant 0.1 unless the jump input is active, in which case
it becomes exactly the impulse -2; the position becomes the previous
position plus the new velocity. -/
theorem c2_gravity_jump_integration (s : Game) (j : Bool) (r : ℤ)
    (hs : s.started = true) (ho : s.isGameOver = false) :
    (Update s j false r).birdDY = (if j then -2 else s.birdDY + 1/10) ∧
    (Update s j false r).birdY = s.birdY + (Update s j false r).birdDY := by
  rw [update_play s j r hs ho, playStep_birdDY, playStep_birdY]
  exact ⟨rfl, rfl⟩

/-- Witness for C2 at a concrete playing state with the jump key held. -/
theorem c2_gravity_jump_integration_witness :
    (sPlay.started = true ∧ sPlay.isGameOver = false) ∧
    ((Update sPlay true false 0).birdDY = (if true then -2 else sPlay.birdDY + 1/10) ∧
      (Update sPlay true false 0).birdY = sPlay.birdY + (Update sPlay true false 0).birdDY) :=
  ⟨⟨rfl, rfl⟩, c2_gravity_jump_integration sPlay true 0 rfl rfl⟩

/-- Claim C3 is contradicted by the code: the `Game` literal in `main` never
sets `birdY`, so the bird starts at the Go zero value 0, not at
`screenHeight/2 = 315`, which is the value `Reset` restores. -/
theorem c3_initial_birdY_is_zero :
    initState.birdY = 0 ∧ initState.birdDY = 0 ∧
    resetState.birdY = 315 ∧ resetState.birdDY = 0 ∧
    initState.birdY ≠ resetState.birdY := by
  refine ⟨rfl, rfl, by norm_num [resetState, screenHeight], rfl, ?_⟩
  norm_num [initState, resetState, screenHeight]

/-- Claim C4 is refuted on a playing state: with a pillar in the bird's
column and the bird outside its gap band, the tick collides, and a
simultaneously pressed Enter resets the game on that same tick, so Enter
does have an effect on a tick that starts in PLAYING. -/
theorem c4_counterexample :
    sPlay.started = true ∧ sPlay.isGameOver = false ∧
    (Update sPlay false true 0).started = false ∧
    (Update sPlay false false 0).started = true ∧
    Update sPlay false true 0 ≠ Update sPlay false false 0 := by
  have h1 : (Update sPlay false true 0).started = false := by
    norm_num [Update, preEnter, startStep, playStep, movedPillars, spawnedPillars,
      NewPillar, movePillar, crossed, collides, sPlay, resetState, screenWidth,
      screenHeight, pillarSpeed, pillarWidth, pillarGap, birdSize,
      List.filter, List.any]
  have h2 : (Update sPlay false false 0).started = true := by
    norm_num [Update, preEnter, startStep, playStep, sPlay]
  refine ⟨rfl, rfl, h1, h2, fun h => ?_⟩
  rw [h, h2] at h1
  exact Bool.noConfusion h1

/-- Claim C4 amended: whenever Enter is observed while the game-over flag is
set at the start of the tick, the post-tick state is the fully reset state;
in general a tick with Enter pressed agrees with the same tick without
Enter, except that when the tick ends with the game-over flag set
(including a collision happening on that very tick) the state is reset
instead, so Enter has no effect exactly on the ticks that end with the
game-over flag clear. -/
theorem c4_enter_reset (s : Game) (j : Bool) (r : ℤ) :
    (s.isGameOver = true → Update s j true r = resetState) ∧
    Update s j true r =
      (if (Update s j false r).isGameOver = true then resetState
       else Update s j false r) := by
  constructor
  · intro h
    simp [Update, preEnter, startStep, h]
  · rw [update_enter_false]
    by_cases h : (preEnter s j r).isGameOver = true
    · simp [Update, h]
    · simp only [Bool.not_eq_true] at h
      simp [Update, h]

/-- Witness for C4's amended theorem at a concrete game-over state. -/
theorem c4_enter_reset_witness :
    sOverFx.isGameOver = true ∧ Update sOverFx false true 0 = resetState :=
  ⟨rfl, (c4_enter_reset sOverFx false 0).1 rfl⟩

/-- Claim C8 counterexample: for a pillar with gap offset 0, Draw places the
second sprite with its top at vertical position 400 = gap_top + pillarGap +
pillarWidth, not at gap_top + pillarGap = 200 as the claim states. -/
theorem c8_counterexample :
    (pillarSpriteTops ⟨640, 0⟩).2.2 = 400 ∧ (0 : ℤ) + pillarGap = 200 ∧
    (pillarSpriteTops ⟨640, 0⟩).2.2 ≠ (0 : ℤ) + pillarGap := by
  norm_num [pillarSpriteTops, geoTranslate, pillarGap, pillarWidth]

/-- Claim C8 amended: Draw places the first sprite of each pillar with its
top at (x, gap_top), extending downward, and the second with its top at
(x, gap_top + gap_height + pillar_width); the vertical offset between the
two sprite tops is pillarGap + pillarWidth = 400, not pillarGap, so the
band left between the sprite tops is not the collision gap band
[gap_top, gap_top + gap_height]. -/
theorem c8_amended_sprite_offsets (p : Pillar) :
    (pillarSpriteTops p).1 = (p.x, p.y) ∧
    (pillarSpriteTops p).2 = (p.x, p.y + (pillarGap + pillarWidth)) ∧
    (pillarSpriteTops p).2.2 - (pillarSpriteTops p).1.2 = pillarGap + pillarWidth ∧
    pillarGap + pillarWidth ≠ pillarGap := by
  norm_num [pillarSpriteTops, geoTranslate, pillarGap, pillarWidth]

/-- Claim C1: in a playing tick (with no simultaneous Enter press), the
game-over flag ends up set iff the post-tick bird position lies strictly
outside the closed gap band of some pillar whose post-movement horizontal
position lies strictly between -pillarWidth and birdSize.  In particular no
tick turns the game over while no pillar overlaps the bird's column. -/
theorem c1_collision_iff (s : Game) (j : Bool) (r : ℤ)
    (hs : s.started = true) (ho : s.isGameOver = false) :
    (Update s j false r).isGameOver = true ↔
      ∃ p ∈ movedPillars s r,
        ((Update s j false r).birdY < (p.y : ℚ) ∨
          (Update s j false r).birdY > ((p.y + pillarGap : ℤ) : ℚ)) ∧
        (-pillarWidth < p.x ∧ p.x < birdSize) := by
  rw [update_play s j r hs ho, playStep_isGameOver, ho]
  simp only [Bool.false_or, List.any_eq_true, collides, Bool.and_eq_true,
    Bool.or_eq_true, decide_eq_true_eq]
  constructor
  · rintro ⟨p, hp, hgap, hx1, hx2⟩
    exact ⟨p, hp, hgap, hx2, hx1⟩
  · rintro ⟨p, hp, hgap, hx2, hx1⟩
    exact ⟨p, hp, hgap, hx1, hx2⟩

/-- Witness for C1 at a concrete playing state whose single pillar is in the
bird's column. -/
theorem c1_collision_iff_witness :
    (sPlay.started = true ∧ sPlay.isGameOver = false) ∧
    ((Update sPlay false false 0).isGameOver = true ↔
      ∃ p ∈ movedPillars sPlay 0,
        ((Update sPlay false false 0).birdY < (p.y : ℚ) ∨
          (Update sPlay false false 0).birdY > ((p.y + pillarGap : ℤ) : ℚ)) ∧
        (-pillarWidth < p.x ∧ p.x < birdSize)) :=
  ⟨⟨rfl, rfl⟩, c1_collision_iff sPlay false 0 rfl rfl⟩

/-- Claim C5: per playing tick the frame counter grows by exactly 1; a
pillar is appended exactly when the incremented counter is divisible by
screenWidth/pillarSpeed, and then exactly one pillar is appended; the new
pillar sits at the right screen edge with gap offset the random draw
(clamped at 0 for a negative draw), so its gap band lies fully on
screen. -/
theorem c5_spawn_cadence (s : Game) (j : Bool) (r : ℤ)
    (hs : s.started = true) (ho : s.isGameOver = false)
    (hr0 : 0 ≤ r) (hr1 : r < screenHeight - pillarGap - pillarWidth) :
    (Update s j false r).frameCount = s.frameCount + 1 ∧
    ((s.frameCount + 1) % (screenWidth / pillarSpeed) = 0 →
      spawnedPillars s r = s.pillars ++ [NewPillar r]) ∧
    ((s.frameCount + 1) % (screenWidth / pillarSpeed) ≠ 0 →
      spawnedPillars s r = s.pillars) ∧
    (spawnedPillars s r).length =
      s.pillars.length +
        (if (s.frameCount + 1) % (screenWidth / pillarSpeed) = 0 then 1 else 0) ∧
    (NewPillar r).x = screenWidth ∧
    (NewPillar r).y = r ∧
    0 ≤ (NewPillar r).y ∧ (NewPillar r).y + pillarGap ≤ screenHeight ∧
    (∀ rneg : ℤ, rneg < 0 → (NewPillar rneg).y = 0) := by
  have hy : (NewPillar r).y = r := by
    simp [NewPillar, not_lt.mpr hr0]
  refine ⟨?_, ?_, ?_, ?_, rfl, hy, ?_, ?_, ?_⟩
  · rw [update_play s j r hs ho, playStep_frameCount]
  · intro h
    simp [spawnedPillars, h]
  · intro h
    simp [spawnedPillars, h]
  · by_cases h : (s.frameCount + 1) % (screenWidth / pillarSpeed) = 0
    · simp [spawnedPillars, h]
    · simp [spawnedPillars, h]
  · rw [hy]; exact hr0
  · rw [hy]
    have : screenHeight - pillarGap - pillarWidth + pillarGap ≤ screenHeight := by
      simp [screenHeight, pillarGap, pillarWidth]
    omega
  · intro rneg hneg
    simp [NewPillar, hneg]

/-- Witness for C5 at a concrete playing state with random draw 5. -/
theorem c5_spawn_cadence_witness :
    (sPlay.started = true ∧ sPlay.isGameOver = false ∧ (0 : ℤ) ≤ 5 ∧
      (5 : ℤ) < screenHeight - pillarGap - pillarWidth) ∧
    ((Update sPlay false false 5).frameCount = sPlay.frameCount + 1 ∧
    ((sPlay.frameCount + 1) % (screenWidth / pillarSpeed) = 0 →
      spawnedPillars sPlay 5 = sPlay.pillars ++ [NewPillar 5]) ∧
    ((sPlay.frameCount + 1) % (screenWidth / pillarSpeed) ≠ 0 →
      spawnedPillars sPlay 5 = sPlay.pillars) ∧
    (spawnedPillars sPlay 5).length =
      sPlay.pillars.length +
        (if (sPlay.frameCount + 1) % (screenWidth / pillarSpeed) = 0 then 1 else 0) ∧
    (NewPillar 5).x = screenWidth ∧
    (NewPillar 5).y = 5 ∧
    0 ≤ (NewPillar 5).y ∧ (NewPillar 5).y + pillarGap ≤ screenHeight ∧
    (∀ rneg : ℤ, rneg < 0 → (NewPillar rneg).y = 0)) :=
  ⟨⟨rfl, rfl, by norm_num, by norm_num [screenHeight, pillarGap, pillarWidth]⟩,
    c5_spawn_cadence sPlay false 5 rfl rfl (by norm_num)
      (by norm_num [screenHeight, pillarGap, pillarWidth])⟩

/-- In a pillar list sorted by strictly increasing x, the pillars past the
left removal threshold form a front segment, so dropping as many elements
from the front as there are crossings removes exactly the crossed
pillars. -/
theorem sorted_drop_crossed (l : List Pillar)
    (h : List.Pairwise (fun p q : Pillar => p.x < q.x) l) :
    l.drop (l.filter crossed).length = l.filter (fun p => !(crossed p)) := by
  induction l with
  | nil => simp
  | cons p t ih =>
    rcases List.pairwise_cons.mp h with ⟨hpt, ht⟩
    by_cases hc : crossed p = true
    · simp [List.filter_cons, hc, List.drop_succ_cons, ih ht]
    · have hc' : crossed p = false := by
        cases hcc : crossed p
        · rfl
        · exact absurd hcc hc
      have hnone : ∀ q ∈ t, crossed q = false := by
        intro q hq
        have hlt := hpt q hq
        simp only [crossed, decide_eq_false_iff_not, not_lt] at hc' ⊢
        linarith
      have h1 : t.filter crossed = [] := by
        rw [List.filter_eq_nil_iff]
        intro q hq
        simp [hnone q hq]
      have h2 : t.filter (fun p => !(crossed p)) = t := by
        apply List.filter_eq_self.mpr
        intro q hq
        simp [hnone q hq]
      simp [List.filter_cons, hc', h1, h2]

/-- The moved pillar list of a tick is sorted by strictly increasing x
whenever the stored list is sorted and lies strictly left of the spawn
edge. -/
theorem movedPillars_sorted (s : Game) (r : ℤ)
    (hsort : List.Pairwise (fun p q : Pillar => p.x < q.x) s.pillars)
    (hbound : ∀ p ∈ s.pillars, p.x < screenWidth) :
    List.Pairwise (fun p q : Pillar => p.x < q.x) (movedPillars s r) := by
  have hsp : List.Pairwise (fun p q : Pillar => p.x < q.x) (spawnedPillars s r) := by
    unfold spawnedPillars
    split
    · rw [List.pairwise_append]
      refine ⟨hsort, List.pairwise_singleton _ _, ?_⟩
      intro a ha b hb
      rw [List.mem_singleton] at hb
      rw [hb]
      simpa [NewPillar] using hbound a ha
    · exact hsort
  rw [movedPillars, List.pairwise_map]
  refine hsp.imp ?_
  intro a b hab
  simp only [movePillar]
  omega

/-- Claim C6: in a playing tick the score grows by exactly the number of
pillars whose moved position has crossed below -pillarWidth, and the
post-tick pillar list is exactly the moved list with those crossed pillars
(a front segment, by sortedness) removed — each crossing removes precisely
the crossing pillar and is therefore counted exactly once. -/
theorem c6_score_crossings (s : Game) (j : Bool) (r : ℤ)
    (hs : s.started = true) (ho : s.isGameOver = false)
    (hsort : List.Pairwise (fun p q : Pillar => p.x < q.x) s.pillars)
    (hbound : ∀ p ∈ s.pillars, p.x < screenWidth) :
    (Update s j false r).score =
      s.score + (((movedPillars s r).filter crossed).length : ℤ) ∧
    (Update s j false r).pillars =
      (movedPillars s r).filter (fun p => !(crossed p)) := by
  rw [update_play s j r hs ho, playStep_score, playStep_pillars]
  exact ⟨rfl, sorted_drop_crossed _ (movedPillars_sorted s r hsort hbound)⟩

/-- Witness for C6 at a concrete playing state with one pillar. -/
theorem c6_score_crossings_witness :
    (sPlay.started = true ∧ sPlay.isGameOver = false ∧
      List.Pairwise (fun p q : Pillar => p.x < q.x) sPlay.pillars ∧
      (∀ p ∈ sPlay.pillars, p.x < screenWidth)) ∧
    ((Update sPlay false false 0).score =
        sPlay.score + (((movedPillars sPlay 0).filter crossed).length : ℤ) ∧
      (Update sPlay false false 0).pillars =
        (movedPillars sPlay 0).filter (fun p => !(crossed p))) :=
  ⟨⟨rfl, rfl, by simp [sPlay], by decide⟩,
    c6_score_crossings sPlay false 0 rfl rfl (by simp [sPlay]) (by decide)⟩

/-- Inductive invariant of the reachable states: the pillar list is sorted
by strictly increasing x with every pillar at most
screenWidth - pillarSpeed; before the game has started there are no
pillars; and the game is never over without having started. -/
def Inv (s : Game) : Prop :=
  List.Pairwise (fun p q : Pillar => p.x < q.x) s.pillars ∧
  (∀ p ∈ s.pillars, p.x ≤ screenWidth - pillarSpeed) ∧
  (s.started = false → s.pillars = []) ∧
  (s.isGameOver = true → s.started = true)

theorem inv_init : Inv initState := by
  refine ⟨by simp [initState], by simp [initState], fun _ => rfl, fun h => ?_⟩
  simp [initState] at h

theorem inv_reset : Inv resetState := by
  refine ⟨by simp [resetState], by simp [resetState], fun _ => rfl, fun h => ?_⟩
  simp [resetState] at h

/-- Membership in the post-spawn list: an element is an old pillar or the
freshly spawned one. -/
theorem mem_spawnedPillars {s : Game} {r : ℤ} {q : Pillar}
    (hq : q ∈ spawnedPillars s r) : q ∈ s.pillars ∨ q = NewPillar r := by
  unfold spawnedPillars at hq
  by_cases hc : (s.frameCount + 1) % (screenWidth / pillarSpeed) = 0
  · rw [if_pos hc, List.mem_append, List.mem_singleton] at hq
    exact hq
  · rw [if_neg hc] at hq
    exact Or.inl hq

theorem inv_playStep (s : Game) (j : Bool) (r : ℤ)
    (h : Inv s) (hst : s.started = true) : Inv (playStep s j r) := by
  rcases h with ⟨h1, h2, _, _⟩
  have hbound : ∀ p ∈ s.pillars, p.x < screenWidth := by
    intro p hp
    have := h2 p hp
    simp only [screenWidth, pillarSpeed] at this ⊢
    omega
  refine ⟨?_, ?_, ?_, ?_⟩
  · rw [playStep_pillars]
    exact (movedPillars_sorted s r h1 hbound).sublist (List.drop_sublist _ _)
  · rw [playStep_pillars]
    intro p hp
    have hpm : p ∈ movedPillars s r := List.mem_of_mem_drop hp
    rw [movedPillars, List.mem_map] at hpm
    rcases hpm with ⟨q, hq, hpq⟩
    rcases mem_spawnedPillars hq with hqo | hqn
    · have := h2 q hqo
      rw [← hpq]
      simp only [movePillar, screenWidth, pillarSpeed] at this ⊢
      omega
    · rw [← hpq, hqn]
      simp [movePillar, NewPillar]
  · intro hf
    rw [playStep_started, hst] at hf
    exact absurd hf (by simp)
  · intro _
    rw [playStep_started]
    exact hst

theorem inv_startStep (s : Game) (j : Bool) (h : Inv s) : Inv (startStep s j) := by
  unfold startStep
  split
  · rcases h with ⟨h1, h2, _, _⟩
    exact ⟨h1, h2, fun hf => by simp at hf, fun _ => rfl⟩
  · exact h

theorem startStep_started_or (s : Game) (j : Bool) :
    startStep s j = s ∨ startStep s j = { s with started := true } := by
  unfold startStep
  split
  · exact Or.inr rfl
  · exact Or.inl rfl

theorem inv_preEnter (s : Game) (j : Bool) (r : ℤ) (h : Inv s) :
    Inv (preEnter s j r) := by
  simp only [preEnter]
  split
  · rename_i hcond
    rw [Bool.and_eq_true] at hcond
    exact inv_playStep _ j r (inv_startStep s j h) hcond.1
  · exact inv_startStep s j h

theorem inv_update (s : Game) (j e : Bool) (r : ℤ) (h : Inv s) :
    Inv (Update s j e r) := by
  simp only [Update]
  split
  · exact inv_reset
  · exact inv_preEnter s j r h

/-- Every reachable state satisfies the inductive invariant. -/
theorem reachable_inv {s : Game} (h : Reachable s) : Inv s := by
  induction h with
  | init => exact inv_init
  | step jump enter r _ _ _ ih => exact inv_update _ jump enter r ih

/-- Claim C7: in every state reachable from the initial state by ticks of
Update, the pillar list is sorted by strictly increasing horizontal
position: the front pillar has the smallest x and the newest
(last-appended) pillar the largest; spawning, movement, front removal and
reset all preserve this ordering. -/
theorem c7_pillars_sorted {s : Game} (h : Reachable s) :
    List.Pairwise (fun p q : Pillar => p.x < q.x) s.pillars :=
  (reachable_inv h).1

/-- Witness for C7 at the state reached by one jump tick from the initial
state. -/
theorem c7_pillars_sorted_witness :
    List.Pairwise (fun p q : Pillar => p.x < q.x)
      (Update initState true false 0).pillars :=
  c7_pillars_sorted
    (Reachable.step true false 0 Reachable.init (by norm_num)
      (by norm_num [screenHeight, pillarGap, pillarWidth]))

/-- Claim C9: no reachable state is simultaneously game-over and
not-started: the collision check runs only while started, and Reset clears
both flags together. -/
theorem c9_over_implies_started {s : Game} (h : Reachable s) :
    (s.isGameOver && !s.started) = false := by
  rcases reachable_inv h with ⟨-, -, -, h4⟩
  cases hov : s.isGameOver
  · simp
  · simp [h4 hov]

/-- Witness for C9 at the initial state. -/
theorem c9_over_implies_started_witness :
    (initState.isGameOver && !initState.started) = false :=
  c9_over_implies_started Reachable.init

/-- Claim C10: a jump observed in a reachable waiting state starts the game
and runs a full physics step on the same tick: gravity is applied and then
the still-active jump overrides the velocity, so the tick ends with
velocity exactly -2 and the position moved by exactly -2, the game started
and not over. -/
theorem c10_waiting_jump_tick {s : Game} (h : Reachable s)
    (hw : s.started = false) (ho : s.isGameOver = false) (e : Bool) (r : ℤ) :
    (Update s true e r).birdDY = -2 ∧
    (Update s true e r).birdY = s.birdY - 2 ∧
    (Update s true e r).started = true ∧
    (Update s true e r).isGameOver = false := by
  have hp : s.pillars = [] := (reachable_inv h).2.2.1 hw
  have hs1 : startStep s true = { s with started := true } := by
    simp [startStep, hw, ho]
  have hover : (playStep { s with started := true } true r).isGameOver = false := by
    rw [playStep_isGameOver]
    by_cases hc : (({ s with started := true } : Game).frameCount + 1)
        % (screenWidth / pillarSpeed) = 0
    · simp [ho, movedPillars, spawnedPillars, hp, hc, NewPillar, movePillar,
        collides, screenWidth, pillarSpeed, birdSize]
    · simp [ho, movedPillars, spawnedPillars, hp, hc]
  have hpre : preEnter s true r = playStep { s with started := true } true r := by
    rw [preEnter, hs1]
    simp [ho]
  have hupd : Update s true e r = playStep { s with started := true } true r := by
    rw [Update, hpre]
    simp [hover]
  rw [hupd, playStep_birdDY, playStep_birdY, playStep_started, playStep_isGameOver]
  refine ⟨by simp, by simp; ring, rfl, hover⟩

/-- Witness for C10 at the initial state. -/
theorem c10_waiting_jump_tick_witness :
    (initState.started = false ∧ initState.isGameOver = false) ∧
    ((Update initState true false 0).birdDY = -2 ∧
      (Update initState true false 0).birdY = initState.birdY - 2 ∧
      (Update initState true false 0).started = true ∧
      (Update initState true false 0).isGameOver = false) :=
  ⟨⟨rfl, rfl⟩, c10_waiting_jump_tick Reachable.init rfl rfl false 0⟩

end FlappyBird
